import Mathlib

/-!
Verification of the License Lifecycle & Remote Bot-Control core of the
EA-Expert-Advisor-Generator repository.

The repository ships a React frontend (src/frontend/src/pages/Dashboard.jsx,
LicenseManager.jsx, ...) that calls a FastAPI backend over HTTP; the backend
module itself is not present in the source tree, only its callers and the
README describing its endpoints. Frontend behaviour (payload construction in
handleAssignLicense, the bot-toggle Switch in Dashboard.jsx, handleToggleBot,
fetchBotStatus) is embedded directly from the JSX source. Backend behaviour
(issue, assign, recordUsage, analyze, toggle, status) is modelled from the
specification, as flagged on each such definition.

Timestamps are modelled as natural numbers (instants on a discrete clock);
currency amounts as rationals (the spec treats purchase_amount as an exact
decimal).
-/

namespace EAGen

/-- Error taxonomy of the conceptual API (spec section 7). -/
inductive ApiError where
  | ValidationError
  | NotFound
  | Conflict
  | Forbidden
deriving Repr, DecidableEq

/-- One customer's grant to use an Artifact under a LicenseKey (spec section 3).
The record deliberately has no stored `is_active` field: the spec requires
that flag to be derived at read time, never persisted. -/
structure LicenseAssignment where
  id : Nat
  license_key : String
  customer_name : String
  customer_email : String
  expiration : Option Nat
  purchase_amount : Option Rat
  usage_count : Nat
  last_used : Option Nat
  created_at : Nat
deriving Repr, DecidableEq

/-- Modelled from the spec: derived attribute `is_active` of a
LicenseAssignment, computed at read time — true iff expiration is absent or
the evaluation instant is strictly before the expiration instant. The backend
module computing it is absent from the source tree; LicenseManager.jsx only
renders the `is_active` field it receives. -/
def isActive (a : LicenseAssignment) (now : Nat) : Bool :=
  match a.expiration with
  | none => true
  | some t => now < t

/-- Per-artifact analytics rollup (spec section 3), derived and not persisted. -/
structure AnalyticsSnapshot where
  total_licenses : Nat
  active_licenses : Nat
  expired_licenses : Nat
  total_revenue : Rat
deriving Repr, DecidableEq

/-- Modelled from the spec: `analyze(artifact_id)` of the Analytics
Aggregator (spec section 4.3), a pure function over the artifact's current
LicenseAssignments. The backend endpoint `/api/license/analytics/{eaId}` is
absent from the source tree; fetchAnalytics in LicenseManager.jsx only reads
its response. Computed in one pass, as a backend would fold over a cursor. -/
def analyze (assigns : List LicenseAssignment) (now : Nat) : AnalyticsSnapshot :=
  let total := assigns.length
  let active := assigns.countP (fun a => isActive a now)
  { total_licenses := total
    active_licenses := active
    expired_licenses := total - active
    total_revenue := assigns.foldl (fun acc a => acc + a.purchase_amount.getD 0) 0 }

/-- The purchase amount of an assignment with an absent amount counted as 0. -/
def amountOf (a : LicenseAssignment) : Rat :=
  a.purchase_amount.getD 0

theorem foldl_add_amount (assigns : List LicenseAssignment) (acc : Rat) :
    assigns.foldl (fun acc a => acc + a.purchase_amount.getD 0) acc
      = acc + (assigns.map amountOf).sum := by
  induction assigns generalizing acc with
  | nil => simp
  | cons a rest ih =>
      simp only [List.foldl_cons, List.map_cons, List.sum_cons, ih, amountOf]
      ring

/-- A dashboard principal: a logged-in user presenting a full bearer token,
or the external execution agent, which has no owner credentials. -/
inductive Principal where
  | user (uid : String)
  | agent
deriving Repr, DecidableEq

/-- Modelled from the spec: the Bot-Control Register (spec section 4.4) —
one boolean flag per artifact, plus the owner identity used to authenticate
`toggle`. The backend endpoints `/api/bot/toggle` and
`/api/bot/status/{ea_id}` are absent from the source tree; Dashboard.jsx only
calls them. -/
structure BotRegister where
  owner : String → String
  flag : String → Bool

/-- Modelled from the spec: transition `toggle(artifact_id, desired_state)`
(spec section 4.4): authenticated as the Artifact owner, sets the flag to the
desired state in a single write and returns the resulting state; a non-owner
caller gets `Forbidden`. -/
def toggleEndpoint (reg : BotRegister) (caller : Principal) (artifactId : String)
    (desired : Bool) : BotRegister × Except ApiError Bool :=
  match caller with
  | .user uid =>
      if reg.owner artifactId = uid then
        ({ reg with flag := fun i => if i = artifactId then desired else reg.flag i },
         .ok desired)
      else (reg, .error .Forbidden)
  | .agent => (reg, .error .Forbidden)

/-- Modelled from the spec: query `status(artifact_id)` of the Polling
Gateway (spec section 4.4): returns the current flag value, is callable
without owner authentication, and has no side effects. -/
def statusEndpoint (reg : BotRegister) (_caller : Principal) (artifactId : String) :
    BotRegister × Except ApiError Bool :=
  (reg, .ok (reg.flag artifactId))

/-- Modelled from the spec: the License Issuer's key store (spec section
4.1), mapping each artifact id to its LicenseKey once issued. The backend
module minting keys at EA generation time is absent from the source tree;
Dashboard.jsx only displays `ea.license_key`. -/
def KeyStore := String → Option String

/-- Modelled from the spec: `issue(artifact_id)` (spec section 4.1):
persists a freshly generated key bound to the artifact, and fails with
`Conflict` — leaving the store untouched — if the artifact already has a
key. The fresh random token is passed in as `freshKey`. -/
def issue (keys : KeyStore) (artifactId freshKey : String) :
    KeyStore × Except ApiError String :=
  match keys artifactId with
  | some _ => (keys, .error .Conflict)
  | none =>
      (fun i => if i = artifactId then some freshKey else keys i, .ok freshKey)

/-- Digits of a numeral, most significant first, to the Nat they denote. -/
def digitsToNat (cs : List Char) : Nat :=
  cs.foldl (fun acc c => acc * 10 + (c.toNat - 48)) 0

/-- Splitting a character list at every occurrence of a separator, the
list-level counterpart of splitting a string on a one-character
separator. -/
def splitOnChar (sep : Char) : List Char → List (List Char)
  | [] => [[]]
  | c :: cs =>
      match splitOnChar sep cs with
      | [] => if c = sep then [[], []] else [[c]]
      | r :: rs => if c = sep then [] :: r :: rs else (c :: r) :: rs

/-- The numeral grammar of a decimal: a digit string, optionally followed by
a dot and a fractional digit string. -/
def parseDecimalChars (cs : List Char) : Option Rat :=
  match splitOnChar '.' cs with
  | [intPart] =>
      if intPart.length > 0 && intPart.all Char.isDigit then
        some (digitsToNat intPart : Rat)
      else none
  | [intPart, fracPart] =>
      if intPart.length > 0 && intPart.all Char.isDigit &&
          fracPart.length > 0 && fracPart.all Char.isDigit then
        some ((digitsToNat intPart : Rat)
          + (digitsToNat fracPart : Rat) / ((10 : Rat) ^ fracPart.length))
      else none
  | _ => none

/-- Modelled from the spec: parsing a purchase amount as a decimal (spec
section 4.2 — "purchase_amount, if given, parses as a non-negative
decimal"): an optional sign, a digit string, and an optional fractional
digit string; `none` on anything else. -/
def parseDecimal (s : String) : Option Rat :=
  match s.data with
  | '-' :: rest => (parseDecimalChars rest).map (fun q => -q)
  | '+' :: rest => parseDecimalChars rest
  | cs => parseDecimalChars cs

/-- Number of days in a month of the Gregorian calendar. -/
def daysInMonth (y m : Nat) : Nat :=
  if m = 2 then
    if y % 4 = 0 && (y % 100 ≠ 0 || y % 400 = 0) then 29 else 28
  else if m = 4 || m = 6 || m = 9 || m = 11 then 30
  else 31

/-- Modelled from the spec: parsing an expiration as a valid date (spec
section 4.2 — "expiration, if given, parses as a valid date"; section 6 —
ISO-8601). Accepts `YYYY-MM-DD` with in-range month and day and returns the
instant encoded as y*10000 + m*100 + d, which preserves date order. -/
def parseDate (s : String) : Option Nat :=
  match splitOnChar '-' s.data with
  | [ys, ms, ds] =>
      if ys.length = 4 && ys.all Char.isDigit &&
          ms.length = 2 && ms.all Char.isDigit &&
          ds.length = 2 && ds.all Char.isDigit then
        let y := digitsToNat ys
        let m := digitsToNat ms
        let d := digitsToNat ds
        if 1 ≤ m && m ≤ 12 && 1 ≤ d && d ≤ daysInMonth y m then
          some (y * 10000 + m * 100 + d)
        else none
      else none
  | _ => none

/-- The raw input of an `assign` call (spec section 4.2); the optional
fields arrive as strings still to be validated. -/
structure AssignRequest where
  license_key : String
  customer_name : String
  customer_email : String
  expiration : Option String
  purchase_amount : Option String
deriving Repr, DecidableEq

/-- The licensing state an `assign` call acts on: the set of issued keys and
the stored LicenseAssignment rows. -/
structure LicenseStore where
  issuedKeys : List String
  assignments : List LicenseAssignment
deriving Repr, DecidableEq

/-- Validation of the optional purchase amount: absent is fine; present must
parse as a non-negative decimal. -/
def checkAmountField : Option String → Except ApiError (Option Rat)
  | none => .ok none
  | some s =>
      match parseDecimal s with
      | some q => if 0 ≤ q then .ok (some q) else .error .ValidationError
      | none => .error .ValidationError

/-- Validation of the optional expiration: absent means perpetual; present
must parse as a valid date. -/
def checkExpirationField : Option String → Except ApiError (Option Nat)
  | none => .ok none
  | some s =>
      match parseDate s with
      | some t => .ok (some t)
      | none => .error .ValidationError

/-- Modelled from the spec: `assign(license_key, customer_name,
customer_email, expiration?, purchase_amount?)` (spec section 4.2). Fails
with `NotFound` if the key was never issued, `ValidationError` on empty name
or email or a malformed optional field — in every failure case the store is
returned unchanged. On success it always appends a fresh row (no upsert or
deduplication), with usage_count 0 and last_used unset. -/
def assign (store : LicenseStore) (now freshId : Nat) (req : AssignRequest) :
    LicenseStore × Except ApiError LicenseAssignment :=
  if store.issuedKeys.contains req.license_key = false then
    (store, .error .NotFound)
  else if req.customer_name = "" || req.customer_email = "" then
    (store, .error .ValidationError)
  else
    match checkAmountField req.purchase_amount,
        checkExpirationField req.expiration with
    | .ok amt, .ok exp =>
        let row : LicenseAssignment :=
          { id := freshId
            license_key := req.license_key
            customer_name := req.customer_name
            customer_email := req.customer_email
            expiration := exp
            purchase_amount := amt
            usage_count := 0
            last_used := none
            created_at := now }
        ({ store with assignments := store.assignments ++ [row] }, .ok row)
    | .error e, _ => (store, .error e)
    | .ok _, .error e => (store, .error e)

/-- The artifact's assignment rows, selected by its license key. -/
def assignmentsForKey (store : LicenseStore) (key : String) :
    List LicenseAssignment :=
  store.assignments.filter (fun a => a.license_key = key)

/-- Modelled from the spec: `recordUsage(assignment_id)` applied to the
resolved row (spec section 4.2): increments the usage counter by 1 and sets
last_used to the current time. -/
def recordUsage (a : LicenseAssignment) (now : Nat) : LicenseAssignment :=
  { a with usage_count := a.usage_count + 1, last_used := some now }

/-- A sequence of successful `recordUsage` calls at the given instants. -/
def runUsages (a : LicenseAssignment) (times : List Nat) : LicenseAssignment :=
  times.foldl recordUsage a

/-- The dashboard's per-EA bot status cache `botStatuses` (Dashboard.jsx,
`useState({})`): a JS object mapping EA id to the fetched boolean flag;
`none` models a key that is still undefined because fetchBotStatus has not
yet stored a response for that EA. -/
def BotStatuses := String → Option Bool

/-- From Dashboard.jsx, the bot-toggle Switch prop
`checked=\x7bbotStatuses[ea.id] || false\x7d`: JS `|| false` on a
boolean-or-undefined operand yields the boolean if present and truthy,
otherwise `false`. -/
def botToggleChecked (statuses : BotStatuses) (eaId : String) : Bool :=
  (statuses eaId).getD false

/-- JS logical negation applied to a boolean-or-undefined value:
`!undefined` evaluates to `true`. -/
def jsNot : Option Bool → Bool
  | none => true
  | some b => !b

/-- The body handleToggleBot POSTs to `/api/bot/toggle` (Dashboard.jsx). -/
structure ToggleRequest where
  ea_id : String
  is_active : Bool
deriving Repr, DecidableEq

/-- From Dashboard.jsx `handleToggleBot(eaId, currentStatus)`: posts
`\x7b ea_id: eaId, is_active: !currentStatus \x7d`; the Switch invokes it
with `currentStatus = botStatuses[ea.id]`. -/
def handleToggleBotRequest (statuses : BotStatuses) (eaId : String) :
    ToggleRequest :=
  { ea_id := eaId, is_active := jsNot (statuses eaId) }

/-- The license-assignment form state of LicenseManager.jsx: four text
inputs, all held as strings ("" when left empty). -/
structure AssignForm where
  customer_name : String
  customer_email : String
  expiration_date : String
  purchase_amount : String
deriving Repr, DecidableEq

/-- Models JS `parseFloat` on the decimal numerals a `type="number"` input
produces (optional sign, digits, optional fraction). Inputs outside that
domain, on which parseFloat would return NaN, are represented as 0. -/
def parseFloat (s : String) : Rat :=
  (parseDecimal s).getD 0

/-- The JSON body handleAssignLicense POSTs to `/api/license/assign`
(LicenseManager.jsx): `expiration_date` is a string or null,
`purchase_amount` a number or null. -/
structure AssignPayload where
  license_key : String
  customer_name : String
  customer_email : String
  expiration_date : Option String
  purchase_amount : Option Rat
deriving Repr, DecidableEq

/-- From LicenseManager.jsx handleAssignLicense: the payload sends
`assignForm.expiration_date || null` and
`assignForm.purchase_amount ? parseFloat(assignForm.purchase_amount) : null`;
JS truthiness of a string is exactly non-emptiness. -/
def handleAssignLicensePayload (licenseKey : String) (form : AssignForm) :
    AssignPayload :=
  { license_key := licenseKey
    customer_name := form.customer_name
    customer_email := form.customer_email
    expiration_date :=
      if form.expiration_date = "" then none else some form.expiration_date
    purchase_amount :=
      if form.purchase_amount = "" then none
      else some (parseFloat form.purchase_amount) }

/-- Every error `checkAmountField` produces is a ValidationError. -/
theorem checkAmountField_error_eq (o : Option String) (e : ApiError)
    (h : checkAmountField o = .error e) : e = .ValidationError := by
  cases o with
  | none => simp [checkAmountField] at h
  | some s =>
      simp only [checkAmountField] at h
      cases hp : parseDecimal s with
      | none => rw [hp] at h; simp at h; exact h.symm
      | some q =>
          rw [hp] at h
          by_cases hq : 0 ≤ q
          · simp [hq] at h
          · simp [hq] at h; exact h.symm

end EAGen

namespace EAGen

/-- C1: for every artifact with N LicenseAssignments whose purchase amounts
are a1..aN (an absent amount counted as 0), `analyze` returns a snapshot with
total_licenses = N, total_revenue = sum of the ai, and
active_licenses + expired_licenses = N. -/
theorem analyze_snapshot_correct (assigns : List LicenseAssignment) (now : Nat) :
    (analyze assigns now).total_licenses = assigns.length ∧
    (analyze assigns now).total_revenue = (assigns.map amountOf).sum ∧
    (analyze assigns now).active_licenses + (analyze assigns now).expired_licenses
      = assigns.length := by
  refine ⟨rfl, ?_, ?_⟩
  · show assigns.foldl (fun acc a => acc + a.purchase_amount.getD 0) 0
        = (assigns.map amountOf).sum
    rw [foldl_add_amount]
    ring
  · show assigns.countP (fun a => isActive a now)
        + (assigns.length - assigns.countP (fun a => isActive a now))
        = assigns.length
    have h := List.countP_le_length (l := assigns) (p := fun a => isActive a now)
    omega

/-- C2: `is_active` is true iff the expiration is absent or the evaluation
instant is strictly before the expiration instant; at exactly the expiration
instant it is false. (The LicenseAssignment record stores no such flag: it is
derived at read time by `isActive`.) -/
theorem isActive_iff_not_expired (a : LicenseAssignment) (now : Nat) :
    (isActive a now = true ↔
      a.expiration = none ∨ ∃ t, a.expiration = some t ∧ now < t) ∧
    (∀ t, a.expiration = some t → isActive a t = false) := by
  constructor
  · unfold isActive
    cases h : a.expiration with
    | none => simp
    | some t => simp [h]
  · intro t ht
    unfold isActive
    simp [ht]

/-- Witness for C2 at a concrete assignment expiring at instant 100. -/
theorem isActive_iff_not_expired_witness :
    isActive ⟨1, "KEY", "n", "e", some 100, none, 0, none, 0⟩ 100 = false :=
  (isActive_iff_not_expired ⟨1, "KEY", "n", "e", some 100, none, 0, none, 0⟩ 100).2
    100 rfl

/-- C3: after `toggle(artifact_id, s)` by the artifact's owner, the call
returns `ok s` and a subsequent `status(artifact_id)` — by any caller —
reads back exactly `s`, with no further state change. -/
theorem toggle_then_status (reg : BotRegister) (uid artifactId : String)
    (s : Bool) (c : Principal) (hown : reg.owner artifactId = uid) :
    (toggleEndpoint reg (.user uid) artifactId s).2 = .ok s ∧
    (statusEndpoint (toggleEndpoint reg (.user uid) artifactId s).1 c artifactId).2
      = .ok s := by
  unfold toggleEndpoint statusEndpoint
  simp [hown]

/-- Witness for C3: a concrete register whose artifact "a7" is owned by "u1",
toggled on and read back by the agent. -/
theorem toggle_then_status_witness :
    (toggleEndpoint ⟨fun _ => "u1", fun _ => false⟩ (.user "u1") "a7" true).2
      = .ok true ∧
    (statusEndpoint
        (toggleEndpoint ⟨fun _ => "u1", fun _ => false⟩ (.user "u1") "a7" true).1
        .agent "a7").2 = .ok true :=
  toggle_then_status ⟨fun _ => "u1", fun _ => false⟩ "u1" "a7" true .agent rfl

/-- C8: `status(artifact_id)` succeeds for every caller — including the
execution agent, which holds no owner credentials — never returns
`Forbidden`, and has no side effects: the register is returned unchanged. -/
theorem status_unauthenticated_pure (reg : BotRegister) (c : Principal)
    (artifactId : String) :
    statusEndpoint reg c artifactId = (reg, .ok (reg.flag artifactId)) :=
  rfl

/-- C4: once an artifact has a key, a second `issue` call for it fails with
`Conflict`, returns the store unchanged, and the artifact still maps to the
key minted by the first call. -/
theorem issue_twice_conflict (keys : KeyStore) (a k1 k2 : String)
    (h : keys a = none) :
    (issue (issue keys a k1).1 a k2).2 = .error .Conflict ∧
    (issue (issue keys a k1).1 a k2).1 a = some k1 ∧
    (issue (issue keys a k1).1 a k2).1 = (issue keys a k1).1 := by
  have hconf : ∀ (ks : KeyStore) (k : String), ks a = some k →
      issue ks a k2 = (ks, Except.error ApiError.Conflict) := by
    intro ks k hk
    unfold issue
    rw [hk]
  have h2 : (issue keys a k1).1 a = some k1 := by
    unfold issue
    rw [h]
    simp
  rw [hconf ((issue keys a k1).1) k1 h2]
  exact ⟨rfl, h2, rfl⟩

/-- Witness for C4 on an initially empty key store. -/
theorem issue_twice_conflict_witness :
    (issue (issue (fun _ => none) "a1" "K1").1 "a1" "K2").2
      = .error .Conflict ∧
    (issue (issue (fun _ => none) "a1" "K1").1 "a1" "K2").1 "a1" = some "K1" :=
  ⟨(issue_twice_conflict (fun _ => none) "a1" "K1" "K2" rfl).1,
   (issue_twice_conflict (fun _ => none) "a1" "K1" "K2" rfl).2.1⟩

/-- C5: an `assign` call on an issued key whose customer_name or
customer_email is empty, whose purchase_amount does not parse as a
non-negative decimal, or whose expiration does not parse as a valid date,
fails with `ValidationError` and leaves the store unchanged — no row is
created. -/
theorem assign_rejects_invalid (store : LicenseStore) (now freshId : Nat)
    (req : AssignRequest)
    (hkey : store.issuedKeys.contains req.license_key = true)
    (hbad : req.customer_name = "" ∨ req.customer_email = "" ∨
      (∃ s, req.purchase_amount = some s ∧
        ¬ ∃ q, parseDecimal s = some q ∧ 0 ≤ q) ∨
      (∃ s, req.expiration = some s ∧ parseDate s = none)) :
    assign store now freshId req = (store, .error .ValidationError) := by
  unfold assign
  rw [hkey]
  simp only [Bool.true_eq_false, if_false]
  by_cases hne : req.customer_name = "" || req.customer_email = ""
  · rw [hne]
    rfl
  · rw [Bool.of_not_eq_true hne]
    simp only [Bool.false_eq_true, if_false]
    simp only [Bool.or_eq_true, decide_eq_true_eq, not_or] at hne
    rcases hbad with hb | hb | ⟨s, hs, hnq⟩ | ⟨s, hs, hp⟩
    · exact absurd hb hne.1
    · exact absurd hb hne.2
    · have hA : checkAmountField req.purchase_amount = .error .ValidationError := by
        rw [hs]
        simp only [checkAmountField]
        cases hp : parseDecimal s with
        | none => rfl
        | some q =>
            have : ¬ 0 ≤ q := fun hq => hnq ⟨q, hp, hq⟩
            simp [this]
      rw [hA]
    · have hE : checkExpirationField req.expiration = .error .ValidationError := by
        rw [hs]
        simp only [checkExpirationField]
        rw [hp]
      rw [hE]
      cases hA : checkAmountField req.purchase_amount with
      | ok amt => rfl
      | error e => rw [checkAmountField_error_eq _ _ hA]

/-- Witness for C5: the spec's scenario — purchase_amount "-5" on an issued
key, rejected with no row created. -/
theorem assign_rejects_invalid_witness :
    assign ⟨["ABC123"], []⟩ 0 1
        ⟨"ABC123", "John Doe", "john@x.com", none, some "-5"⟩
      = (⟨["ABC123"], []⟩, .error .ValidationError) :=
  assign_rejects_invalid ⟨["ABC123"], []⟩ 0 1
    ⟨"ABC123", "John Doe", "john@x.com", none, some "-5"⟩
    (by decide)
    (Or.inr (Or.inr (Or.inl ⟨"-5", rfl, fun ⟨q, hq, hge⟩ => by
      have h5 : parseDecimal "-5" = some (-5 : Rat) := by decide
      rw [h5] at hq
      rw [← Option.some.inj hq] at hge
      norm_num at hge⟩)))

/-- C6: `usage_count` is non-decreasing across any sequence of `recordUsage`
calls and grows by exactly the number of calls (so from a fresh row it
equals the number of successful calls); each call increments the counter by
exactly 1 and sets last_used to that call's instant; and if the counter was
not incremented, last_used is unchanged. -/
theorem recordUsage_counter_exact (a : LicenseAssignment) (ts : List Nat) :
    a.usage_count ≤ (runUsages a ts).usage_count ∧
    (runUsages a ts).usage_count = a.usage_count + ts.length ∧
    (∀ t, (recordUsage a t).usage_count = a.usage_count + 1 ∧
      (recordUsage a t).last_used = some t) ∧
    ((runUsages a ts).usage_count = a.usage_count →
      (runUsages a ts).last_used = a.last_used) := by
  have hcount : ∀ (ts : List Nat) (b : LicenseAssignment),
      (runUsages b ts).usage_count = b.usage_count + ts.length := by
    intro ts
    induction ts with
    | nil => intro b; rfl
    | cons t rest ih =>
        intro b
        have : runUsages b (t :: rest) = runUsages (recordUsage b t) rest := rfl
        rw [this, ih]
        simp [recordUsage]
        omega
  refine ⟨?_, hcount ts a, fun t => ⟨rfl, rfl⟩, ?_⟩
  · rw [hcount ts a]; omega
  · intro hfix
    rw [hcount ts a] at hfix
    have : ts = [] := List.length_eq_zero.mp (by omega)
    rw [this]
    rfl

/-- Witness for C6: two usage recordings on a fresh row give counter 2. -/
theorem recordUsage_counter_exact_witness :
    (runUsages ⟨1, "K", "n", "e", none, none, 0, none, 0⟩ [3, 7]).usage_count
      = 0 + 2 :=
  (recordUsage_counter_exact ⟨1, "K", "n", "e", none, none, 0, none, 0⟩
    [3, 7]).2.1

/-- C7: a valid `assign` call always appends a fresh row — the store places
no uniqueness constraint on (license_key, customer_email), so this holds
even when an identical pair is already present — and the artifact's
total_licenses (the count of its assignment rows) increases by exactly 1. -/
theorem assign_always_inserts (store : LicenseStore) (now freshId : Nat)
    (req : AssignRequest) (amt : Option Rat) (exp : Option Nat)
    (hkey : store.issuedKeys.contains req.license_key = true)
    (hname : req.customer_name ≠ "") (hemail : req.customer_email ≠ "")
    (hA : checkAmountField req.purchase_amount = .ok amt)
    (hE : checkExpirationField req.expiration = .ok exp) :
    (assign store now freshId req).1.assignments
      = store.assignments ++
        [⟨freshId, req.license_key, req.customer_name, req.customer_email,
          exp, amt, 0, none, now⟩] ∧
    (assignmentsForKey (assign store now freshId req).1 req.license_key).length
      = (assignmentsForKey store req.license_key).length + 1 := by
  have hstep : assign store now freshId req
      = ({ store with assignments := store.assignments ++
            [⟨freshId, req.license_key, req.customer_name, req.customer_email,
              exp, amt, 0, none, now⟩] },
         .ok ⟨freshId, req.license_key, req.customer_name, req.customer_email,
              exp, amt, 0, none, now⟩) := by
    unfold assign
    rw [hkey]
    simp only [Bool.true_eq_false, if_false]
    have hne : (req.customer_name = "" || req.customer_email = "") = false := by
      simp [hname, hemail]
    rw [hne]
    simp only [Bool.false_eq_true, if_false]
    rw [hA, hE]
  constructor
  · rw [hstep]
  · rw [hstep]
    unfold assignmentsForKey
    simp

/-- Witness for C7: the store already holds a row with the same
(license_key, customer_email) pair, and the valid re-assign still appends a
second row, raising the artifact's row count from 1 to 2. -/
theorem assign_always_inserts_witness :
    (assignmentsForKey
        (assign ⟨["K"], [⟨0, "K", "Jane", "e@x.com", none, none, 0, none, 0⟩]⟩
          5 1 ⟨"K", "Jane", "e@x.com", none, none⟩).1 "K").length
      = 1 + 1 :=
  (assign_always_inserts
    ⟨["K"], [⟨0, "K", "Jane", "e@x.com", none, none, 0, none, 0⟩]⟩
    5 1 ⟨"K", "Jane", "e@x.com", none, none⟩ none none
    (by decide) (by decide) (by decide) rfl rfl).2

/-- C9: an EA whose bot status has not yet been fetched (botStatuses entry
undefined) is rendered with the Switch off (disarmed), and invoking the
toggle for it sends a request with is_active = true, whatever the
server-side flag may be. -/
theorem unfetched_status_defaults (statuses : BotStatuses) (eaId : String)
    (h : statuses eaId = none) :
    botToggleChecked statuses eaId = false ∧
    (handleToggleBotRequest statuses eaId).is_active = true := by
  unfold botToggleChecked handleToggleBotRequest jsNot
  rw [h]
  exact ⟨rfl, rfl⟩

/-- Witness for C9 on an empty status cache. -/
theorem unfetched_status_defaults_witness :
    botToggleChecked (fun _ => none) "ea1" = false ∧
    (handleToggleBotRequest (fun _ => none) "ea1").is_active = true :=
  unfetched_status_defaults (fun _ => none) "ea1" rfl

/-- C10: the assign payload sends an empty expiration-date field as null and
an empty purchase-amount field as null — the Option is `none`, never an
empty string or 0 — while non-empty fields are sent as the string,
respectively as the parseFloat value. -/
theorem assign_payload_optional_fields (key : String) (form : AssignForm) :
    (form.expiration_date = "" →
      (handleAssignLicensePayload key form).expiration_date = none) ∧
    (form.expiration_date ≠ "" →
      (handleAssignLicensePayload key form).expiration_date
        = some form.expiration_date) ∧
    (form.purchase_amount = "" →
      (handleAssignLicensePayload key form).purchase_amount = none) ∧
    (form.purchase_amount ≠ "" →
      (handleAssignLicensePayload key form).purchase_amount
        = some (parseFloat form.purchase_amount)) := by
  unfold handleAssignLicensePayload
  refine ⟨fun h => ?_, fun h => ?_, fun h => ?_, fun h => ?_⟩ <;> simp [h]

/-- Witness for C10: an all-empty form yields null optional fields; a filled
form sends the string and the parsed number. -/
theorem assign_payload_optional_fields_witness :
    (handleAssignLicensePayload "K" ⟨"J", "j@x.com", "", ""⟩).expiration_date
      = none ∧
    (handleAssignLicensePayload "K" ⟨"J", "j@x.com", "", ""⟩).purchase_amount
      = none ∧
    (handleAssignLicensePayload "K"
        ⟨"J", "j@x.com", "2025-01-01", "99.99"⟩).purchase_amount
      = some (parseFloat "99.99") :=
  ⟨(assign_payload_optional_fields "K" ⟨"J", "j@x.com", "", ""⟩).1 rfl,
   (assign_payload_optional_fields "K" ⟨"J", "j@x.com", "", ""⟩).2.2.1 rfl,
   (assign_payload_optional_fields "K"
      ⟨"J", "j@x.com", "2025-01-01", "99.99"⟩).2.2.2 (by decide)⟩

end EAGen
